import Mathlib

/-!
Shallow embedding of the core logic of the `azure-iot-simulator` repository:
the metrics collector (`src/monitoring/metrics_collector.py`), the message
generator (`src/azure_integration/message_generator.py`), the device send
operation (`src/azure_integration/device_client.py`) and the per-device
simulation loop (`src/azure_integration/simulation_engine.py`).

Conventions of the embedding:
* Python floats are modelled as exact rationals (`ℚ`); wall-clock values
  (`datetime.now()` / `time.time()`) are passed in explicitly as rational
  "tick" parameters.
* Randomness (`random.uniform`, `random.gauss`, `random.choice`, faker
  strings, uuids) and the transcendental `math.sin` are supplied by an
  explicit oracle argument; the embedded code applies the same
  post-processing (clamping, defaults) as the source.
* Python dictionaries keyed by strings are modelled as insertion-ordered
  association lists; `collections.defaultdict` access is the explicit
  `getOrInsert` operation below.
* Python truthiness (`x or d`, `if x and p`) is modelled explicitly:
  `None`, `0`, `""`, `False` are falsy.
-/

namespace IoTSim

/-- Python truthiness fallback for an optional rational: `v or d`.
`None` and `0` are falsy. -/
def pyOrQ (v : Option ℚ) (d : ℚ) : ℚ :=
  match v with
  | none => d
  | some q => if q = 0 then d else q

/-! ## Metrics collector (`src/monitoring/metrics_collector.py`) -/

/-- One entry of `MetricsCollector.device_metrics` (the defaultdict value). -/
structure DeviceEntry where
  message_count : ℕ
  error_count : ℕ
  last_message_time : Option ℚ
  connection_status : String
  simulation_status : String
deriving DecidableEq, Repr

/-- The defaultdict default factory value (metrics_collector.py lines 14-20). -/
def defaultEntry : DeviceEntry :=
  { message_count := 0
    error_count := 0
    last_message_time := none
    connection_status := "disconnected"
    simulation_status := "stopped" }

/-- Association-list lookup modelling `device_id in dict` / `dict[device_id]`. -/
def lookupDev : List (String × DeviceEntry) → String → Option DeviceEntry
  | [], _ => none
  | (k, v) :: rest, id => if k = id then some v else lookupDev rest id

/-- `defaultdict.__getitem__`: returns the stored entry, inserting the default
(at the end, matching Python dict insertion order) when the key is absent. -/
def getOrInsert (m : List (String × DeviceEntry)) (id : String) :
    DeviceEntry × List (String × DeviceEntry) :=
  match lookupDev m id with
  | some v => (v, m)
  | none => (defaultEntry, m ++ [(id, defaultEntry)])

/-- In-place mutation of the entry stored under `id`. -/
def setDev : List (String × DeviceEntry) → String → DeviceEntry →
    List (String × DeviceEntry)
  | [], _, _ => []
  | p :: rest, id, v => (if p.1 = id then (id, v) else p) :: setDev rest id v

/-- History buffer capacity: `self.history_size = 24 * 60`. -/
def history_size : ℕ := 24 * 60

/-- `collections.deque(maxlen=cap).append`: appends, evicting the oldest
entry when the deque is full. -/
def dequeAppend (cap : ℕ) (xs : List (ℚ × ℕ)) (x : ℚ × ℕ) : List (ℚ × ℕ) :=
  let ys := xs ++ [x]
  if ys.length ≤ cap then ys else ys.drop (ys.length - cap)

/-- The mutable state of a `MetricsCollector` instance. -/
structure MetricsState where
  device_metrics : List (String × DeviceEntry)
  total_messages : ℕ
  total_errors : ℕ
  messages_per_second : ℚ
  active_devices : ℤ
  connected_devices : ℤ
  message_history : List (ℚ × ℕ)
  error_history : List (ℚ × ℕ)
  start_time : ℚ
  last_update : ℚ
deriving DecidableEq, Repr

/-- `MetricsCollector.__init__` (given the two clocks read at construction). -/
def initMetrics (now mono : ℚ) : MetricsState :=
  { device_metrics := []
    total_messages := 0
    total_errors := 0
    messages_per_second := 0
    active_devices := 0
    connected_devices := 0
    message_history := []
    error_history := []
    start_time := now
    last_update := mono }

/-- `MetricsCollector._update_rates` (`now` is `datetime.now()`, `mono` is
`time.time()`). -/
def update_rates (now mono : ℚ) (s : MetricsState) : MetricsState :=
  if mono - s.last_update ≥ 1 then
    let one_minute_ago := now - 60
    let recent := s.message_history.filter (fun p => one_minute_ago ≤ p.1)
    { s with
      messages_per_second := ((recent.map (fun p => (p.2 : ℚ))).sum) / 60
      last_update := mono }
  else
    s

/-- `MetricsCollector.record_message_sent` (event emission has no effect on
collector state and is not modelled). -/
def record_message_sent (device_id : String) (now mono : ℚ) (s : MetricsState) :
    MetricsState :=
  let gi := getOrInsert s.device_metrics device_id
  let m := gi.1
  let dm := setDev gi.2 device_id
    { m with message_count := m.message_count + 1, last_message_time := some now }
  let s := { s with
    device_metrics := dm
    total_messages := s.total_messages + 1
    message_history := dequeAppend history_size s.message_history (now, 1) }
  update_rates now mono s

/-- `MetricsCollector.record_message_error`. -/
def record_message_error (device_id : String) (now : ℚ) (s : MetricsState) :
    MetricsState :=
  let gi := getOrInsert s.device_metrics device_id
  let m := gi.1
  let dm := setDev gi.2 device_id { m with error_count := m.error_count + 1 }
  { s with
    device_metrics := dm
    total_errors := s.total_errors + 1
    error_history := dequeAppend history_size s.error_history (now, 1) }

/-- `MetricsCollector.update_device_status`.  `connected` / `simulating` are
the truthiness of `status_data.get("connected", False)` /
`status_data.get("simulating", False)`. -/
def update_device_status (device_id : String) (connected simulating : Bool)
    (s : MetricsState) : MetricsState :=
  let gi := getOrInsert s.device_metrics device_id
  let metrics := gi.1
  let old_connected := metrics.connection_status == "connected"
  let old_simulating := metrics.simulation_status == "running"
  let metrics' := { metrics with
    connection_status := if connected then "connected" else "disconnected"
    simulation_status := if simulating then "running" else "stopped" }
  let dm := setDev gi.2 device_id metrics'
  let new_connected := metrics'.connection_status == "connected"
  let new_simulating := metrics'.simulation_status == "running"
  let cd :=
    if new_connected != old_connected then
      if new_connected then s.connected_devices + 1 else s.connected_devices - 1
    else s.connected_devices
  let ad :=
    if new_simulating != old_simulating then
      if new_simulating then s.active_devices + 1 else s.active_devices - 1
    else s.active_devices
  { s with device_metrics := dm, connected_devices := cd, active_devices := ad }

/-- `MetricsCollector.get_device_metrics`: returns a copy of the entry; the
defaultdict access inserts the default entry for an unseen id. -/
def get_device_metrics (device_id : String) (s : MetricsState) :
    DeviceEntry × MetricsState :=
  let gi := getOrInsert s.device_metrics device_id
  (gi.1, { s with device_metrics := gi.2 })

/-- Result shape of `MetricsCollector.get_system_metrics`. -/
structure SystemMetricsOut where
  total_messages : ℕ
  total_errors : ℕ
  messages_per_second : ℚ
  active_devices : ℤ
  connected_devices : ℤ
  uptime_seconds : ℚ
  total_devices : ℕ
deriving DecidableEq, Repr

/-- `MetricsCollector.get_system_metrics`. -/
def get_system_metrics (now : ℚ) (s : MetricsState) : SystemMetricsOut :=
  { total_messages := s.total_messages
    total_errors := s.total_errors
    messages_per_second := s.messages_per_second
    active_devices := s.active_devices
    connected_devices := s.connected_devices
    uptime_seconds := now - s.start_time
    total_devices := s.device_metrics.length }

/-- Result shape of `MetricsCollector.get_historical_data`. -/
structure HistoricalData where
  messages : List (ℚ × ℕ)
  errors : List (ℚ × ℕ)
deriving DecidableEq, Repr

/-- `MetricsCollector.get_historical_data` (timestamps kept as rationals in
place of ISO strings; `hours` hours are `hours * 3600` seconds). -/
def get_historical_data (hours : ℕ) (now : ℚ) (s : MetricsState) : HistoricalData :=
  let cutoff_time := now - (hours : ℚ) * 3600
  { messages := s.message_history.filter (fun p => cutoff_time ≤ p.1)
    errors := s.error_history.filter (fun p => cutoff_time ≤ p.1) }

/-- Result shape of `MetricsCollector.export_metrics`. -/
structure ExportSnapshot where
  system_metrics : SystemMetricsOut
  device_metrics : List (String × DeviceEntry)
  historical_data : HistoricalData
deriving DecidableEq, Repr

/-- `MetricsCollector.export_metrics`. -/
def export_metrics (now : ℚ) (s : MetricsState) : ExportSnapshot :=
  { system_metrics := get_system_metrics now s
    device_metrics := s.device_metrics
    historical_data := get_historical_data 24 now s }

/-- `MetricsCollector.reset_metrics` (note: `_last_update` is not reset by the
source). -/
def reset_metrics (now : ℚ) (s : MetricsState) : MetricsState :=
  { device_metrics := []
    total_messages := 0
    total_errors := 0
    messages_per_second := 0
    active_devices := 0
    connected_devices := 0
    message_history := []
    error_history := []
    start_time := now
    last_update := s.last_update }

/-! Event sequences over the collector, used to state trace properties. -/

/-- A `record_message_sent` / `record_message_error` call with its clocks. -/
inductive RecordEvent where
  | sent (device_id : String) (now mono : ℚ)
  | err (device_id : String) (now : ℚ)
deriving DecidableEq, Repr

/-- Apply one record event. -/
def applyRecord (s : MetricsState) (e : RecordEvent) : MetricsState :=
  match e with
  | RecordEvent.sent id now mono => record_message_sent id now mono s
  | RecordEvent.err id now => record_message_error id now s

/-- Apply a sequence of record events in order. -/
def applyRecords (s : MetricsState) (evs : List RecordEvent) : MetricsState :=
  evs.foldl applyRecord s

/-- Is the event a send? -/
def isSent : RecordEvent → Bool
  | RecordEvent.sent _ _ _ => true
  | RecordEvent.err _ _ => false

/-- The `(now, 1)` entries the events append to the message history. -/
def sentEntries (evs : List RecordEvent) : List (ℚ × ℕ) :=
  evs.filterMap (fun e =>
    match e with
    | RecordEvent.sent _ now _ => some (now, 1)
    | RecordEvent.err _ _ => none)

/-- The `(now, 1)` entries the events append to the error history. -/
def errEntries (evs : List RecordEvent) : List (ℚ × ℕ) :=
  evs.filterMap (fun e =>
    match e with
    | RecordEvent.sent _ _ _ => none
    | RecordEvent.err _ now => some (now, 1))

/-- The last `n` elements of a list. -/
def lastN (n : ℕ) (xs : List (ℚ × ℕ)) : List (ℚ × ℕ) :=
  xs.drop (xs.length - n)

/-- A `update_device_status` call: device id, `connected`, `simulating`. -/
def applyStatusUpdates (s : MetricsState) (us : List (String × Bool × Bool)) :
    MetricsState :=
  us.foldl (fun st u => update_device_status u.1 u.2.1 u.2.2 st) s

/-- Number of per-device entries whose `connection_status` is `"connected"`. -/
def connCount (m : List (String × DeviceEntry)) : ℕ :=
  m.countP (fun p => p.2.connection_status == "connected")

/-- Number of per-device entries whose `simulation_status` is `"running"`. -/
def runCount (m : List (String × DeviceEntry)) : ℕ :=
  m.countP (fun p => p.2.simulation_status == "running")

/-- The transactional-consistency invariant of the collector: device ids are
unique in the map and the incremental system counters agree with full
recomputation over the per-device entries. -/
def MetricsInv (s : MetricsState) : Prop :=
  (s.device_metrics.map Prod.fst).Nodup ∧
  s.connected_devices = (connCount s.device_metrics : ℤ) ∧
  s.active_devices = (runCount s.device_metrics : ℤ)

/-! ## Message generator (`src/azure_integration/message_generator.py`) -/

/-- A Python value as it may appear in `FieldConfig.constant_value : Any`. -/
inductive PyVal where
  | none
  | num (q : ℚ)
  | str (s : String)
  | bool (b : Bool)
deriving DecidableEq, Repr

/-- Python truthiness of a value. -/
def pyTruthy : PyVal → Bool
  | PyVal.none => false
  | PyVal.num q => if q = 0 then false else true
  | PyVal.str s => if s = "" then false else true
  | PyVal.bool b => b

/-- Python `v or d`. -/
def pyOr (v d : PyVal) : PyVal :=
  if pyTruthy v then v else d

/-- Numeric coercion as used by Python arithmetic / `round` / `int`:
`bool` is numeric in Python; a string or `None` raises `TypeError`
(caught by `_generate_field_value`, which then returns `None`). -/
def asNum : PyVal → Option ℚ
  | PyVal.num q => some q
  | PyVal.bool b => some (if b then 1 else 0)
  | PyVal.none => none
  | PyVal.str _ => none

/-- Python `str(v)`.  The rendering of numerics is abstract (rationals stand
in for floats); claims only depend on the string and boolean cases. -/
def pyStr : PyVal → String
  | PyVal.none => "None"
  | PyVal.str s => s
  | PyVal.bool b => if b then "True" else "False"
  | PyVal.num q => if q.den = 1 then toString q.num
                   else toString q.num ++ "/" ++ toString q.den

/-- Python `int(q)`: truncation toward zero. -/
def pyTrunc (q : ℚ) : ℤ :=
  if 0 ≤ q then Rat.floor q else -(Rat.floor (-q))

/-- Round-half-to-even to an integer (Python 3 `round`). -/
def roundHalfEven (q : ℚ) : ℤ :=
  let f := Rat.floor q
  let frac := q - (f : ℚ)
  if frac < 1/2 then f
  else if 1/2 < frac then f + 1
  else if f % 2 = 0 then f else f + 1

/-- Python `round(q, 2)`. -/
def round2 (q : ℚ) : ℚ :=
  (roundHalfEven (q * 100) : ℚ) / 100

/-- `DataPattern` enum of the source. -/
inductive DataPattern where
  | constant
  | random
  | sine_wave
  | linear
  | gaussian
deriving DecidableEq, Repr

/-- `FieldConfig` dataclass (`step_size`, `amplitude`, `frequency`, `mean`,
`std_dev` default to `0.1, 1.0, 1.0, 0.0, 1.0` at construction sites). -/
structure FieldConfig where
  name : String
  data_type : String
  pattern : DataPattern
  min_value : Option ℚ
  max_value : Option ℚ
  constant_value : PyVal
  step_size : ℚ
  amplitude : ℚ
  frequency : ℚ
  mean : ℚ
  std_dev : ℚ
deriving DecidableEq, Repr

/-- Environment values consumed while generating one field: random draws,
faker strings, uuids, the current ISO timestamp, and the float value of
`math.sin(2π · frequency · step / 100)` (transcendental, hence supplied by
the environment rather than recomputed). -/
structure FieldOracle where
  uniform : ℚ
  gauss : ℚ
  coin : Bool
  randInt : ℕ
  statusChoice : String
  fakerName : String
  fakerAddress : String
  fakerWord : String
  lat : ℚ
  lon : ℚ
  uuidStr : String
  nowIso : String
  sinStep : ℚ
deriving DecidableEq, Repr

/-- A value stored in a generated message. -/
inductive MsgVal where
  | none
  | num (q : ℚ)
  | int (n : ℤ)
  | str (s : String)
  | bool (b : Bool)
  | loc (lat lon : ℚ)
deriving DecidableEq, Repr

/-- The `value` computed by `MessageTemplate._generate_numeric_value`
(message_generator.py lines 134-172), before the int/float conversion,
together with the step counter after the call (the linear wrap resets it).
`none` models the `TypeError` raised when the constant is a non-numeric
string (caught by `_generate_field_value`). -/
def numeric_raw_value (field : FieldConfig) (o : FieldOracle) (step : ℕ) :
    Option (ℚ × ℕ) :=
  match field.pattern with
  | DataPattern.constant =>
    (asNum (pyOr field.constant_value (PyVal.num 0))).map (fun q => (q, step))
  | DataPattern.random =>
    some (o.uniform, step)
  | DataPattern.sine_wave =>
    let amplitude := if field.amplitude = 0 then 1 else field.amplitude
    let offset := field.mean
    some (offset + amplitude * o.sinStep, step)
  | DataPattern.linear =>
    let start_value := pyOrQ field.min_value 0
    let step_size := if field.step_size = 0 then 1/10 else field.step_size
    let value := start_value + step_size * (step : ℚ)
    match field.max_value with
    | some mv =>
      if mv ≠ 0 ∧ mv < value then some (pyOrQ field.min_value 0, 0)
      else some (value, step)
    | none => some (value, step)
  | DataPattern.gaussian =>
    let value := o.gauss
    let value := match field.min_value with
      | some mn => max value mn
      | none => value
    let value := match field.max_value with
      | some mx => min value mx
      | none => value
    some (value, step)

/-- Final conversion of `_generate_numeric_value`: `int(value)` for `"int"`,
`round(value, 2)` otherwise. -/
def convert_numeric (data_type : String) (q : ℚ) : MsgVal :=
  if data_type = "int" then MsgVal.int (pyTrunc q) else MsgVal.num (round2 q)

/-- `MessageTemplate._generate_numeric_value` (value after conversion, plus
the step counter after the call). -/
def generate_numeric_value (field : FieldConfig) (o : FieldOracle) (step : ℕ) :
    Option (MsgVal × ℕ) :=
  (numeric_raw_value field o step).map
    (fun p => (convert_numeric field.data_type p.1, p.2))

/-- `MessageTemplate._generate_string_value`. -/
def generate_string_value (faker_available : Bool) (field : FieldConfig)
    (o : FieldOracle) (step : ℕ) : String :=
  if field.pattern = DataPattern.constant then
    pyStr (pyOr field.constant_value (PyVal.str ""))
  else if field.pattern = DataPattern.random then
    if faker_available then
      let n := field.name.toLower
      if n = "name" ∨ n = "device_name" then o.fakerName
      else if n = "location" ∨ n = "address" then o.fakerAddress
      else if n = "status" ∨ n = "state" then o.statusChoice
      else o.fakerWord
    else
      let k := o.randInt
      s!"value_{k}"
  else
    let n := field.name
    s!"{n}_{step}"

/-- `MessageTemplate._generate_field_value`: dispatch on `data_type`; the
only modelled exception source is non-numeric arithmetic in the numeric
branch, for which the `except` clause returns `None`.  Returns the value and
the step counter after the call. -/
def generate_field_value (faker_available : Bool) (o : FieldOracle)
    (field : FieldConfig) (step : ℕ) : MsgVal × ℕ :=
  if field.data_type = "timestamp" then (MsgVal.str o.nowIso, step)
  else if field.data_type = "uuid" then (MsgVal.str o.uuidStr, step)
  else if field.data_type = "location" then (MsgVal.loc o.lat o.lon, step)
  else if field.data_type = "bool" then
    if field.pattern = DataPattern.constant then
      (MsgVal.bool (pyTruthy field.constant_value), step)
    else (MsgVal.bool o.coin, step)
  else if field.data_type = "string" then
    (MsgVal.str (generate_string_value faker_available field o step), step)
  else if field.data_type = "int" ∨ field.data_type = "float" then
    match generate_numeric_value field o step with
    | some (v, step') => (v, step')
    | none => (MsgVal.none, step)
  else (MsgVal.none, step)

/-- Python-dict assignment `message[k] = v` on an insertion-ordered map. -/
def dictInsert (m : List (String × MsgVal)) (k : String) (v : MsgVal) :
    List (String × MsgVal) :=
  if m.any (fun p => p.1 == k) then m.map (fun p => if p.1 == k then (k, v) else p)
  else m ++ [(k, v)]

/-- Python `k in message`. -/
def dictContains (m : List (String × MsgVal)) (k : String) : Bool :=
  m.any (fun p => p.1 == k)

/-- The `for field in self.fields` loop of `MessageTemplate.generate_message`:
evaluates fields in declaration order, threading the shared step counter
(which a linear wrap may reset) and consuming the oracle positionally. -/
def generate_fields (faker_available : Bool) (oracle : ℕ → FieldOracle) :
    List FieldConfig → ℕ → ℕ → List (String × MsgVal) →
    List (String × MsgVal) × ℕ
  | [], _, step, acc => (acc, step)
  | f :: rest, i, step, acc =>
    let r := generate_field_value faker_available (oracle i) f step
    generate_fields faker_available oracle rest (i + 1) r.2 (dictInsert acc f.name r.1)

/-- `MessageTemplate.generate_message`: evaluates every field, injects a
timestamp when absent, and increments the shared step counter once at the
end.  Returns the message and the step counter after the call. -/
def generate_message (faker_available : Bool) (oracle : ℕ → FieldOracle)
    (now_iso : String) (fields : List FieldConfig) (step : ℕ) :
    List (String × MsgVal) × ℕ :=
  let r := generate_fields faker_available oracle fields 0 step []
  let message :=
    if dictContains r.1 "timestamp" then r.1
    else dictInsert r.1 "timestamp" (MsgVal.str now_iso)
  (message, r.2 + 1)

/-- Reference evaluation of the field loop with the step counter frozen at
`step`: what `generate_fields` computes when no field mutates the counter. -/
def generate_fields_frozen (faker_available : Bool) (oracle : ℕ → FieldOracle) :
    List FieldConfig → ℕ → ℕ → List (String × MsgVal) → List (String × MsgVal)
  | [], _, _, acc => acc
  | f :: rest, i, step, acc =>
    generate_fields_frozen faker_available oracle rest (i + 1) step
      (dictInsert acc f.name (generate_field_value faker_available (oracle i) f step).1)

/-! ## Device send operation (`src/azure_integration/device_client.py`) and
simulation loop (`src/azure_integration/simulation_engine.py`) -/

/-- The `VirtualDevice` state that `send_message` reads and writes. -/
structure DeviceState where
  has_client : Bool
  is_connected : Bool
  is_simulating : Bool
  message_count : ℕ
  error_count : ℕ
  last_message_time : Option ℚ
deriving DecidableEq, Repr

/-- Outcome of the underlying Azure client call `client.send_message`:
either it completes, or it raises (network failure etc.). -/
inductive ClientSend where
  | ok
  | raises
deriving DecidableEq, Repr

/-- `VirtualDevice.send_message` (device_client.py lines 207-269): returns
the success flag and the updated device state.
* Azure SDK unavailable: simulated success (count bumped, `True`).
* no client / not connected: warn and return `False` (no counter change).
* client call completes: count bumped, `True`.
* client call raises: `error_count` bumped, `MESSAGE_FAILED` emitted, `False`. -/
def send_message (azure_available : Bool) (outcome : ClientSend) (now : ℚ)
    (d : DeviceState) : Bool × DeviceState :=
  if azure_available = false then
    (true, { d with message_count := d.message_count + 1, last_message_time := some now })
  else if d.has_client = false ∨ d.is_connected = false then
    (false, d)
  else
    match outcome with
    | ClientSend.ok =>
      (true, { d with message_count := d.message_count + 1, last_message_time := some now })
    | ClientSend.raises =>
      (false, { d with error_count := d.error_count + 1 })

/-- `SimulationConfig` dataclass. -/
structure SimulationConfig where
  interval : ℕ
  jitter : ℚ
  burst_mode : Bool
  burst_count : ℕ
  burst_interval : ℕ
  max_messages : Option ℕ
deriving DecidableEq, Repr

/-- The `DeviceSimulation` state the loop reads and writes.  `send_pos`
indexes the stream of client-send outcomes consumed by successive sends. -/
structure SimState where
  is_running : Bool
  message_count : ℕ
  device : DeviceState
  send_pos : ℕ
deriving DecidableEq, Repr

/-- The loop's limit check, with Python truthiness:
`if self.config.max_messages and self.message_count >= self.config.max_messages`. -/
def max_reached (cfg : SimulationConfig) (count : ℕ) : Bool :=
  match cfg.max_messages with
  | none => false
  | some m => if m = 0 then false else decide (m ≤ count)

/-- `DeviceSimulation._send_single_message`.  `template_ok` abstracts
`message_generator.generate_message(template_name)` being truthy: for a
registered template the generated dict always contains at least the
timestamp key, so it is truthy exactly when the template exists.  Message
content does not influence the loop. -/
def send_single_message (azure_available template_ok : Bool)
    (outs : ℕ → ClientSend) (now : ℚ) (st : SimState) : SimState :=
  if template_ok then
    let r := send_message azure_available (outs st.send_pos) now st.device
    { st with
      device := r.2
      send_pos := st.send_pos + 1
      message_count := if r.1 then st.message_count + 1 else st.message_count }
  else st

/-- `DeviceSimulation._send_burst_messages`: `burst_count` iterations of the
same generate-send-count body (the inter-burst sleeps do not change state). -/
def send_burst_messages (azure_available template_ok : Bool)
    (outs : ℕ → ClientSend) (now : ℚ) : ℕ → SimState → SimState
  | 0, st => st
  | n + 1, st =>
    send_burst_messages azure_available template_ok outs now n
      (send_single_message azure_available template_ok outs now st)

/-- The `finally` block of `_simulation_loop`: clears `is_running` and the
device's `is_simulating`. -/
def loop_finalize (st : SimState) : SimState :=
  { st with is_running := false, device := { st.device with is_simulating := false } }

/-- One iteration of the `while self.is_running` loop of
`DeviceSimulation._simulation_loop`: exit (running the `finally` block) when
the loop condition fails or the message limit is reached; otherwise send a
burst or a single message.  The jittered sleep changes no modelled state.
An exited state is a fixed point. -/
def simulation_tick (cfg : SimulationConfig) (azure_available template_ok : Bool)
    (outs : ℕ → ClientSend) (now : ℚ) (st : SimState) : SimState :=
  if st.is_running = false then loop_finalize st
  else if max_reached cfg st.message_count then loop_finalize st
  else if cfg.burst_mode then
    send_burst_messages azure_available template_ok outs now cfg.burst_count st
  else send_single_message azure_available template_ok outs now st

/-- `n` iterations of the simulation loop.  Exhausting the iteration budget
leaves `is_running` untouched (the loop is still in progress); the loop only
clears it itself via `loop_finalize`. -/
def simulation_run (cfg : SimulationConfig) (azure_available template_ok : Bool)
    (outs : ℕ → ClientSend) (now : ℚ) : ℕ → SimState → SimState
  | 0, st => st
  | n + 1, st =>
    simulation_run cfg azure_available template_ok outs now n
      (simulation_tick cfg azure_available template_ok outs now st)

/-- `DeviceSimulation.start` followed by entering the loop: `is_running` and
the device's `is_simulating` set, message count at 0. -/
def sim_start (d : DeviceState) : SimState :=
  { is_running := true
    message_count := 0
    device := { d with is_simulating := true }
    send_pos := 0 }

/-! ## Concrete instances used in statements and their evaluations -/

/-- A fixed environment for field generation. -/
def sampleOracle : FieldOracle :=
  { uniform := 0, gauss := 0, coin := false, randInt := 0, statusChoice := "active"
    fakerName := "n", fakerAddress := "a", fakerWord := "w", lat := 0, lon := 0
    uuidStr := "u", nowIso := "T", sinStep := 0 }

/-- A second environment, differing from `sampleOracle`. -/
def sampleOracle2 : FieldOracle :=
  { uniform := 7, gauss := 3, coin := true, randInt := 9, statusChoice := "error"
    fakerName := "n2", fakerAddress := "a2", fakerWord := "w2", lat := 1, lon := 2
    uuidStr := "u2", nowIso := "T2", sinStep := 1 }

/-- Linear float field with `max_value = 0.0`: set, but falsy in Python. -/
def linearMaxZeroField : FieldConfig :=
  { name := "a", data_type := "float", pattern := DataPattern.linear
    min_value := none, max_value := some 0, constant_value := PyVal.none
    step_size := 1, amplitude := 1, frequency := 1, mean := 0, std_dev := 1 }

/-- Linear float field that wraps once the value exceeds `max_value = 1`. -/
def linearWrapField : FieldConfig :=
  { name := "a", data_type := "float", pattern := DataPattern.linear
    min_value := none, max_value := some 1, constant_value := PyVal.none
    step_size := 1, amplitude := 1, frequency := 1, mean := 0, std_dev := 1 }

/-- A string field whose non-constant, non-random pattern renders the step
counter into the value (`f"{field.name}_{self._step_counter}"`). -/
def stepStringField : FieldConfig :=
  { name := "b", data_type := "string", pattern := DataPattern.linear
    min_value := none, max_value := none, constant_value := PyVal.none
    step_size := 1, amplitude := 1, frequency := 1, mean := 0, std_dev := 1 }

/-- Constant float field with value 5. -/
def constFloatField : FieldConfig :=
  { name := "c", data_type := "float", pattern := DataPattern.constant
    min_value := none, max_value := none, constant_value := PyVal.num 5
    step_size := 1, amplitude := 1, frequency := 1, mean := 0, std_dev := 1 }

/-- A connected, idle device. -/
def connectedDevice : DeviceState :=
  { has_client := true, is_connected := true, is_simulating := false
    message_count := 0, error_count := 0, last_message_time := none }

/-- A device with a client that is not connected. -/
def disconnectedDevice : DeviceState :=
  { has_client := true, is_connected := false, is_simulating := false
    message_count := 0, error_count := 0, last_message_time := none }

/-- `SimulationConfig(interval=1, jitter=0, burst_mode=False, max_messages=5)`. -/
def cfgMax5 : SimulationConfig :=
  { interval := 1, jitter := 0, burst_mode := false, burst_count := 5
    burst_interval := 1, max_messages := some 5 }

/-- `SimulationConfig(interval=1, jitter=0, burst_mode=True, burst_count=3)`,
no message cap. -/
def cfgBurst : SimulationConfig :=
  { interval := 1, jitter := 0, burst_mode := true, burst_count := 3
    burst_interval := 1, max_messages := none }

/-- A send-outcome stream in which every client call completes. -/
def alwaysOk : ℕ → ClientSend := fun _ => ClientSend.ok

/-- A send-outcome stream in which every client call raises. -/
def alwaysRaises : ℕ → ClientSend := fun _ => ClientSend.raises

/-- The loop state of the `cfgMax5` always-succeeding run after `k`
successful sends (`k ≤ 5`). -/
def c4State (k : ℕ) : SimState :=
  { is_running := true
    message_count := k
    device :=
      { has_client := true, is_connected := true, is_simulating := true
        message_count := k, error_count := 0
        last_message_time := if k = 0 then none else some 0 }
    send_pos := k }

/-- The final state of that run: the loop exited via the message limit. -/
def c4StopState : SimState := loop_finalize (c4State 5)

/-! # Theorems -/

/-! ## Simulation loop lemmas -/

lemma simulation_run_succ (cfg : SimulationConfig) (az tOk : Bool)
    (outs : ℕ → ClientSend) (now : ℚ) (n : ℕ) (st : SimState) :
    simulation_run cfg az tOk outs now (n + 1) st =
      simulation_run cfg az tOk outs now n (simulation_tick cfg az tOk outs now st) := rfl

lemma c4_tick_step : ∀ k, k < 5 →
    simulation_tick cfgMax5 true true alwaysOk 0 (c4State k) = c4State (k + 1) := by decide

lemma c4_tick_stop :
    simulation_tick cfgMax5 true true alwaysOk 0 (c4State 5) = c4StopState := by decide

lemma c4_stop_fixed :
    simulation_tick cfgMax5 true true alwaysOk 0 c4StopState = c4StopState := by decide

lemma c4_run_stop (n : ℕ) :
    simulation_run cfgMax5 true true alwaysOk 0 n c4StopState = c4StopState := by
  induction n with
  | zero => rfl
  | succ n ih => rw [simulation_run_succ, c4_stop_fixed]; exact ih

lemma c4_run_closed : ∀ (n k : ℕ), k ≤ 5 →
    simulation_run cfgMax5 true true alwaysOk 0 n (c4State k) =
      if k + n ≤ 5 then c4State (k + n) else c4StopState := by
  intro n
  induction n with
  | zero =>
    intro k hk
    simp [simulation_run, hk]
  | succ n ih =>
    intro k hk
    rcases Nat.lt_or_ge k 5 with h | h
    · rw [simulation_run_succ, c4_tick_step k h, ih (k + 1) (by omega)]
      have he : k + 1 + n = k + (n + 1) := by omega
      rw [he]
    · have hk5 : k = 5 := by omega
      subst hk5
      rw [simulation_run_succ, c4_tick_stop, c4_run_stop]
      rw [if_neg (by omega)]

/-- Claim C4: with `burst_mode = false`, `max_messages = 5` and an
always-succeeding send capability, the loop never counts more than 5
messages and, given at least 6 iterations, has stopped itself: exactly 5
messages counted and sent, `is_running` false, `is_simulating` cleared,
without `stop()` being called. -/
theorem C4_max_messages_self_stop (n : ℕ) :
    (simulation_run cfgMax5 true true alwaysOk 0 n (sim_start connectedDevice)).message_count ≤ 5 ∧
    (simulation_run cfgMax5 true true alwaysOk 0 n (sim_start connectedDevice)).device.message_count ≤ 5 ∧
    (6 ≤ n →
      simulation_run cfgMax5 true true alwaysOk 0 n (sim_start connectedDevice) = c4StopState) := by
  have h0 : sim_start connectedDevice = c4State 0 := by decide
  have hc := c4_run_closed n 0 (by omega)
  rw [Nat.zero_add] at hc
  rw [h0, hc]
  rcases Nat.lt_or_ge n 6 with h | h
  · rw [if_pos (by omega)]
    refine ⟨by simp [c4State]; omega, by simp [c4State]; omega, ?_⟩
    intro h6; omega
  · rw [if_neg (by omega)]
    exact ⟨by decide, by decide, fun _ => rfl⟩

/-- Witness for C4 at 10 loop iterations. -/
theorem C4_witness :
    simulation_run cfgMax5 true true alwaysOk 0 10 (sim_start connectedDevice) = c4StopState ∧
    c4StopState.message_count = 5 ∧ c4StopState.is_running = false ∧
    c4StopState.device.is_simulating = false ∧ c4StopState.device.message_count = 5 :=
  ⟨(C4_max_messages_self_stop 10).2.2 (by omega), rfl, rfl, rfl, rfl⟩

lemma send_single_raises (now : ℚ) (st : SimState)
    (h1 : st.device.has_client = true) (h2 : st.device.is_connected = true) :
    send_single_message true true alwaysRaises now st =
      { st with device := { st.device with error_count := st.device.error_count + 1 }
                send_pos := st.send_pos + 1 } := by
  simp [send_single_message, send_message, alwaysRaises, h1, h2]

lemma send_burst_raises (now : ℚ) : ∀ (k : ℕ) (st : SimState),
    st.device.has_client = true → st.device.is_connected = true →
    send_burst_messages true true alwaysRaises now k st =
      { st with device := { st.device with error_count := st.device.error_count + k }
                send_pos := st.send_pos + k } := by
  intro k
  induction k with
  | zero => intro st h1 h2; rfl
  | succ k ih =>
    intro st h1 h2
    rw [send_burst_messages, send_single_raises now st h1 h2,
      ih { st with device := { st.device with error_count := st.device.error_count + 1 }
                   send_pos := st.send_pos + 1 } h1 h2]
    simp [Nat.add_assoc, Nat.add_comm 1 k]

lemma run_raises_closed (cfg : SimulationConfig) (now : ℚ) (hb : cfg.burst_mode = false) :
    ∀ (n : ℕ) (st : SimState),
    st.device.has_client = true → st.device.is_connected = true →
    st.is_running = true → max_reached cfg st.message_count = false →
    simulation_run cfg true true alwaysRaises now n st =
      { st with device := { st.device with error_count := st.device.error_count + n }
                send_pos := st.send_pos + n } := by
  intro n
  induction n with
  | zero => intro st h1 h2 h3 h4; rfl
  | succ n ih =>
    intro st h1 h2 h3 h4
    have htick : simulation_tick cfg true true alwaysRaises now st =
        { st with device := { st.device with error_count := st.device.error_count + 1 }
                  send_pos := st.send_pos + 1 } := by
      simp [simulation_tick, h3, h4, hb, send_single_raises now st h1 h2]
    rw [simulation_run_succ, htick,
      ih { st with device := { st.device with error_count := st.device.error_count + 1 }
                   send_pos := st.send_pos + 1 } h1 h2 h3 h4]
    simp [Nat.add_assoc, Nat.add_comm 1 n]

lemma run_raises_facts (cfg : SimulationConfig) (now : ℚ) : ∀ (n : ℕ) (st : SimState),
    st.device.has_client = true → st.device.is_connected = true →
    ((simulation_run cfg true true alwaysRaises now n st).message_count = st.message_count ∧
     (simulation_run cfg true true alwaysRaises now n st).device.has_client = true ∧
     (simulation_run cfg true true alwaysRaises now n st).device.is_connected = true) ∧
    (st.is_running = true → max_reached cfg st.message_count = false →
     (simulation_run cfg true true alwaysRaises now n st).is_running = true) := by
  intro n
  induction n with
  | zero => intro st h1 h2; exact ⟨⟨rfl, h1, h2⟩, fun h3 _ => h3⟩
  | succ n ih =>
    intro st h1 h2
    by_cases h3 : st.is_running = true
    · by_cases h4 : max_reached cfg st.message_count = true
      · have htick : simulation_tick cfg true true alwaysRaises now st = loop_finalize st := by
          simp [simulation_tick, h3, h4]
        rw [simulation_run_succ, htick]
        have hof := ih (loop_finalize st) h1 h2
        refine ⟨hof.1, fun _ h4' => ?_⟩
        rw [h4] at h4'; cases h4'
      · have h4f : max_reached cfg st.message_count = false := by
          cases hmr : max_reached cfg st.message_count
          · rfl
          · exact absurd hmr h4
        by_cases hbm : cfg.burst_mode = true
        · have htick : simulation_tick cfg true true alwaysRaises now st =
              { st with device := { st.device with
                          error_count := st.device.error_count + cfg.burst_count }
                        send_pos := st.send_pos + cfg.burst_count } := by
            simp [simulation_tick, h3, h4f, hbm, send_burst_raises now cfg.burst_count st h1 h2]
          rw [simulation_run_succ, htick]
          have hn := ih
            { st with
              device := { st.device with error_count := st.device.error_count + cfg.burst_count },
              send_pos := st.send_pos + cfg.burst_count } h1 h2
          exact ⟨hn.1, fun _ _ => hn.2 h3 h4f⟩
        · have hbf : cfg.burst_mode = false := by
            cases hx : cfg.burst_mode
            · rfl
            · exact absurd hx hbm
          have htick : simulation_tick cfg true true alwaysRaises now st =
              { st with device := { st.device with error_count := st.device.error_count + 1 }
                        send_pos := st.send_pos + 1 } := by
            simp [simulation_tick, h3, h4f, hbf, send_single_raises now st h1 h2]
          rw [simulation_run_succ, htick]
          have hn := ih
            { st with
              device := { st.device with error_count := st.device.error_count + 1 },
              send_pos := st.send_pos + 1 } h1 h2
          exact ⟨hn.1, fun _ _ => hn.2 h3 h4f⟩
    · have h3f : st.is_running = false := by
        cases hx : st.is_running
        · rfl
        · exact absurd hx h3
      have htick : simulation_tick cfg true true alwaysRaises now st = loop_finalize st := by
        simp [simulation_tick, h3f]
      rw [simulation_run_succ, htick]
      have hof := ih (loop_finalize st) h1 h2
      exact ⟨hof.1, fun h3' _ => absurd h3' h3⟩

lemma max_reached_zero (cfg : SimulationConfig) (m : ℕ)
    (hm : cfg.max_messages = some m) :
    max_reached cfg 0 = false := by
  simp [max_reached, hm, Nat.le_zero]

/-- Claim C9: a send whose outcome is failure leaves `message_count`
unchanged; under an always-raising send capability the count stays 0 for
any number of iterations (single or burst mode), the configured
`max_messages` cap is never reached, and the loop keeps running. -/
theorem C9_failed_sends_not_counted :
    (∀ (az : Bool) (outs : ℕ → ClientSend) (now : ℚ) (st : SimState),
       (send_message az (outs st.send_pos) now st.device).1 = false →
       (send_single_message az true outs now st).message_count = st.message_count) ∧
    (∀ (cfg : SimulationConfig) (now : ℚ) (n : ℕ) (st : SimState) (m : ℕ),
       cfg.max_messages = some m →
       st.message_count = 0 → st.is_running = true →
       st.device.has_client = true → st.device.is_connected = true →
       (simulation_run cfg true true alwaysRaises now n st).message_count = 0 ∧
       max_reached cfg (simulation_run cfg true true alwaysRaises now n st).message_count = false ∧
       (simulation_run cfg true true alwaysRaises now n st).is_running = true) := by
  constructor
  · intro az outs now st h
    simp [send_single_message, h]
  · intro cfg now n st m hm hc0 hr h1 h2
    have hf := run_raises_facts cfg now n st h1 h2
    have hcount : (simulation_run cfg true true alwaysRaises now n st).message_count = 0 := by
      rw [hf.1.1, hc0]
    have hcap : max_reached cfg st.message_count = false := by
      rw [hc0]; exact max_reached_zero cfg m hm
    refine ⟨hcount, ?_, hf.2 hr hcap⟩
    rw [hcount]
    exact max_reached_zero cfg m hm

/-- Witness for C9: one failing send and a 4-iteration always-failing run. -/
theorem C9_witness :
    (send_single_message true true alwaysRaises 0 (sim_start connectedDevice)).message_count
        = (sim_start connectedDevice).message_count ∧
    (simulation_run cfgMax5 true true alwaysRaises 0 4 (sim_start connectedDevice)).message_count = 0 ∧
    (simulation_run cfgMax5 true true alwaysRaises 0 4 (sim_start connectedDevice)).is_running = true :=
  ⟨C9_failed_sends_not_counted.1 true alwaysRaises 0 (sim_start connectedDevice) (by decide),
   (C9_failed_sends_not_counted.2 cfgMax5 0 4 (sim_start connectedDevice) 5 rfl rfl rfl rfl rfl).1,
   (C9_failed_sends_not_counted.2 cfgMax5 0 4 (sim_start connectedDevice) 5 rfl rfl rfl rfl rfl).2.2⟩

/-- Claim C6, counterexample: a send that reports failure because the
device is not connected returns `False` without incrementing the device
error counter, so a send that fails does not always increment it. -/
theorem C6_counterexample :
    (send_message true ClientSend.ok 0 disconnectedDevice).1 = false ∧
    (send_message true ClientSend.ok 0 disconnectedDevice).2.error_count
        = disconnectedDevice.error_count ∧
    (send_message true ClientSend.ok 0 disconnectedDevice).2.error_count
        ≠ disconnectedDevice.error_count + 1 := by
  exact ⟨by decide, by decide, by decide⟩

lemma send_single_is_running (az tOk : Bool) (outs : ℕ → ClientSend) (now : ℚ)
    (st : SimState) :
    (send_single_message az tOk outs now st).is_running = st.is_running := by
  unfold send_single_message
  split <;> rfl

lemma send_burst_is_running (az tOk : Bool) (outs : ℕ → ClientSend) (now : ℚ) :
    ∀ (k : ℕ) (st : SimState),
    (send_burst_messages az tOk outs now k st).is_running = st.is_running := by
  intro k
  induction k with
  | zero => intro st; rfl
  | succ k ih =>
    intro st
    rw [send_burst_messages, ih, send_single_is_running]

/-- Claim C6 (amended): a send during which the client raises increments the
per-device error counter and reports failure; a send that reports failure
without raising (no client, or not connected) leaves the device state,
including its error counter, unchanged; and in either case the failure does
not stop the loop: in any mode and under any send outcomes, an iteration
started running and below the message cap leaves `is_running` true; under
always-raising sends the loop stays running with `message_count` unchanged
for any number of iterations in either mode, and in single mode it attempts
one further send and accumulates exactly one error per iteration. -/
theorem C6_amended_failure_policy :
    (∀ (now : ℚ) (d : DeviceState), d.has_client = true → d.is_connected = true →
       send_message true ClientSend.raises now d =
         (false, { d with error_count := d.error_count + 1 })) ∧
    (∀ (now : ℚ) (d : DeviceState) (outcome : ClientSend),
       d.has_client = false ∨ d.is_connected = false →
       send_message true outcome now d = (false, d)) ∧
    (∀ (cfg : SimulationConfig) (az tOk : Bool) (outs : ℕ → ClientSend) (now : ℚ)
       (st : SimState),
       st.is_running = true → max_reached cfg st.message_count = false →
       (simulation_tick cfg az tOk outs now st).is_running = true) ∧
    (∀ (cfg : SimulationConfig) (now : ℚ) (n : ℕ) (st : SimState),
       st.device.has_client = true → st.device.is_connected = true →
       st.is_running = true → max_reached cfg st.message_count = false →
       (simulation_run cfg true true alwaysRaises now n st).is_running = true ∧
       (simulation_run cfg true true alwaysRaises now n st).message_count
         = st.message_count) ∧
    (∀ (cfg : SimulationConfig) (now : ℚ) (n : ℕ) (st : SimState),
       cfg.burst_mode = false →
       st.device.has_client = true → st.device.is_connected = true →
       st.is_running = true → max_reached cfg st.message_count = false →
       simulation_run cfg true true alwaysRaises now n st =
         { st with device := { st.device with error_count := st.device.error_count + n },
                   send_pos := st.send_pos + n }) := by
  refine ⟨?_, ?_, ?_, ?_, ?_⟩
  · intro now d h1 h2
    simp [send_message, h1, h2]
  · intro now d outcome h
    simp [send_message, h]
  · intro cfg az tOk outs now st h1 h2
    by_cases hb : cfg.burst_mode = true <;>
      simp [simulation_tick, h1, h2, hb, send_single_is_running, send_burst_is_running]
  · intro cfg now n st h1 h2 h3 h4
    have hf := run_raises_facts cfg now n st h1 h2
    exact ⟨hf.2 h3 h4, hf.1.1⟩
  · intro cfg now n st hb h1 h2 h3 h4
    exact run_raises_closed cfg now hb n st h1 h2 h3 h4

/-- Witness for the amended C6: a raising send, a non-raising failed send on
a disconnected device, one burst-mode iteration, a 5-iteration burst-mode
run, and a 3-iteration single-mode run. -/
theorem C6_amended_witness :
    send_message true ClientSend.raises 0 connectedDevice =
      (false, { connectedDevice with error_count := 1 }) ∧
    send_message true ClientSend.ok 0 disconnectedDevice = (false, disconnectedDevice) ∧
    (simulation_tick cfgBurst true true alwaysRaises 0 (sim_start connectedDevice)).is_running
      = true ∧
    (simulation_run cfgBurst true true alwaysRaises 0 5 (sim_start connectedDevice)).is_running
      = true ∧
    simulation_run cfgMax5 true true alwaysRaises 0 3 (sim_start connectedDevice) =
      { sim_start connectedDevice with
        device := { (sim_start connectedDevice).device with error_count := 3 },
        send_pos := 3 } :=
  ⟨C6_amended_failure_policy.1 0 connectedDevice rfl rfl,
   C6_amended_failure_policy.2.1 0 disconnectedDevice ClientSend.ok (Or.inr rfl),
   C6_amended_failure_policy.2.2.1 cfgBurst true true alwaysRaises 0
     (sim_start connectedDevice) rfl rfl,
   (C6_amended_failure_policy.2.2.2.1 cfgBurst 0 5 (sim_start connectedDevice)
     rfl rfl rfl rfl).1,
   C6_amended_failure_policy.2.2.2.2 cfgMax5 0 3 (sim_start connectedDevice)
     rfl rfl rfl rfl (by decide)⟩

/-- Claim C3, counterexample: with `max_value` set to `0.0` (set, but
falsy in Python), the linear value at step 1 exceeds the maximum yet is
returned unwrapped with the counter intact — `(1, 1)`, not the claimed
`(minValue or 0, 0)`. -/
theorem C3_counterexample :
    linearMaxZeroField.pattern = DataPattern.linear ∧
    linearMaxZeroField.max_value = some 0 ∧
    pyOrQ linearMaxZeroField.min_value 0 +
      (if linearMaxZeroField.step_size = 0 then 1/10 else linearMaxZeroField.step_size)
        * ((1 : ℕ) : ℚ) > 0 ∧
    numeric_raw_value linearMaxZeroField sampleOracle 1 = some (1, 1) ∧
    numeric_raw_value linearMaxZeroField sampleOracle 1
      ≠ some (pyOrQ linearMaxZeroField.min_value 0, 0) := by
  refine ⟨rfl, rfl, by norm_num [pyOrQ, linearMaxZeroField], ?_, ?_⟩
  · simp only [numeric_raw_value, linearMaxZeroField, pyOrQ]
    norm_num
  · simp only [numeric_raw_value, linearMaxZeroField, pyOrQ]
    norm_num

/-- Claim C3 (amended: `maxValue` set to a nonzero value): each linear
value is `minValue(or 0) + stepSize(or 0.1) * step`, and on the call where
that value exceeds `maxValue` the branch instead returns `minValue (or 0)`
and resets the internal step counter to 0. -/
theorem C3_linear_wrap (field : FieldConfig) (o : FieldOracle) (step : ℕ) (mv : ℚ)
    (hp : field.pattern = DataPattern.linear)
    (hm : field.max_value = some mv) (hmv : mv ≠ 0) :
    (pyOrQ field.min_value 0 +
        (if field.step_size = 0 then 1/10 else field.step_size) * (step : ℚ) ≤ mv →
      numeric_raw_value field o step =
        some (pyOrQ field.min_value 0 +
          (if field.step_size = 0 then 1/10 else field.step_size) * (step : ℚ), step)) ∧
    (mv < pyOrQ field.min_value 0 +
        (if field.step_size = 0 then 1/10 else field.step_size) * (step : ℚ) →
      numeric_raw_value field o step = some (pyOrQ field.min_value 0, 0)) := by
  have hv : numeric_raw_value field o step =
      if mv ≠ 0 ∧ mv < pyOrQ field.min_value 0 +
          (if field.step_size = 0 then 1/10 else field.step_size) * (step : ℚ)
      then some (pyOrQ field.min_value 0, 0)
      else some (pyOrQ field.min_value 0 +
        (if field.step_size = 0 then 1/10 else field.step_size) * (step : ℚ), step) := by
    simp only [numeric_raw_value, hp, hm]
  constructor
  · intro h
    rw [hv, if_neg]
    rintro ⟨_, hlt⟩
    exact absurd hlt (not_lt.2 h)
  · intro h
    rw [hv, if_pos ⟨hmv, h⟩]

/-- Witness for C3: wrap fires at step 2, not at step 1. -/
theorem C3_witness :
    numeric_raw_value linearWrapField sampleOracle 2 = some (0, 0) ∧
    numeric_raw_value linearWrapField sampleOracle 1 = some (1, 1) := by
  have h2 := (C3_linear_wrap linearWrapField sampleOracle 2 1 rfl rfl (by norm_num)).2
  have h1 := (C3_linear_wrap linearWrapField sampleOracle 1 1 rfl rfl (by norm_num)).1
  constructor
  · have := h2 (by norm_num [pyOrQ, linearWrapField])
    simpa [pyOrQ, linearWrapField] using this
  · have := h1 (by norm_num [pyOrQ, linearWrapField])
    simpa [pyOrQ, linearWrapField] using this

/-- Claim C7: for `pattern = constant` fields of string, boolean or
numeric type, the generated value is independent of the step counter and of
the environment, the counter is left unchanged, and the value equals the
configured constant under the documented conversions: string constants
verbatim (empty string when unset), booleans by truthiness, numerics
defaulting to 0 when unset, truncated for `int` and rounded to 2 decimal
places for `float`. -/
theorem C7_constant_pattern (fa fa' : Bool) (field : FieldConfig) (o o' : FieldOracle)
    (s t : ℕ)
    (hp : field.pattern = DataPattern.constant)
    (hdt : field.data_type = "string" ∨ field.data_type = "bool" ∨
           field.data_type = "int" ∨ field.data_type = "float") :
    (generate_field_value fa o field s).2 = s ∧
    (generate_field_value fa o field s).1 = (generate_field_value fa' o' field t).1 ∧
    (∀ c, field.data_type = "string" → field.constant_value = PyVal.str c →
      (generate_field_value fa o field s).1 = MsgVal.str c) ∧
    (field.data_type = "string" → field.constant_value = PyVal.none →
      (generate_field_value fa o field s).1 = MsgVal.str "") ∧
    (field.data_type = "bool" →
      (generate_field_value fa o field s).1 = MsgVal.bool (pyTruthy field.constant_value)) ∧
    (∀ q, asNum (pyOr field.constant_value (PyVal.num 0)) = some q →
      (field.data_type = "int" →
        (generate_field_value fa o field s).1 = MsgVal.int (pyTrunc q)) ∧
      (field.data_type = "float" →
        (generate_field_value fa o field s).1 = MsgVal.num (round2 q))) := by
  rcases hdt with hdt | hdt | hdt | hdt
  · -- string
    refine ⟨?_, ?_, ?_, ?_, ?_, ?_⟩
    · simp [generate_field_value, hdt]
    · simp [generate_field_value, hdt, generate_string_value, hp]
    · intro c _ hc
      simp [generate_field_value, hdt, generate_string_value, hp, hc, pyOr, pyStr]
      by_cases h0 : c = ""
      · simp [h0, pyTruthy]
      · simp [pyTruthy, h0]
    · intro _ hc
      simp [generate_field_value, hdt, generate_string_value, hp, hc, pyOr, pyTruthy, pyStr]
    · intro hb; rw [hdt] at hb; exact absurd hb (by decide)
    · intro q _
      constructor
      · intro hb; rw [hdt] at hb; exact absurd hb (by decide)
      · intro hb; rw [hdt] at hb; exact absurd hb (by decide)
  · -- bool
    refine ⟨?_, ?_, ?_, ?_, ?_, ?_⟩
    · simp [generate_field_value, hdt, hp]
    · simp [generate_field_value, hdt, hp]
    · intro c hb; rw [hdt] at hb; exact absurd hb (by decide)
    · intro hb; rw [hdt] at hb; exact absurd hb (by decide)
    · intro _; simp [generate_field_value, hdt, hp]
    · intro q _
      constructor
      · intro hb; rw [hdt] at hb; exact absurd hb (by decide)
      · intro hb; rw [hdt] at hb; exact absurd hb (by decide)
  · -- int
    refine ⟨?_, ?_, ?_, ?_, ?_, ?_⟩
    · simp [generate_field_value, hdt, generate_numeric_value, numeric_raw_value, hp,
        convert_numeric]
      rcases hq : asNum (pyOr field.constant_value (PyVal.num 0)) with _ | q <;> simp [hq]
    · simp [generate_field_value, hdt, generate_numeric_value, numeric_raw_value, hp,
        convert_numeric]
      rcases hq : asNum (pyOr field.constant_value (PyVal.num 0)) with _ | q <;> simp [hq]
    · intro c hb; rw [hdt] at hb; exact absurd hb (by decide)
    · intro hb; rw [hdt] at hb; exact absurd hb (by decide)
    · intro hb; rw [hdt] at hb; exact absurd hb (by decide)
    · intro q hq
      constructor
      · intro _
        simp [generate_field_value, hdt, generate_numeric_value, numeric_raw_value, hp,
          convert_numeric, hq]
      · intro hb; rw [hdt] at hb; exact absurd hb (by decide)
  · -- float
    refine ⟨?_, ?_, ?_, ?_, ?_, ?_⟩
    · simp [generate_field_value, hdt, generate_numeric_value, numeric_raw_value, hp,
        convert_numeric]
      rcases hq : asNum (pyOr field.constant_value (PyVal.num 0)) with _ | q <;> simp [hq]
    · simp [generate_field_value, hdt, generate_numeric_value, numeric_raw_value, hp,
        convert_numeric]
      rcases hq : asNum (pyOr field.constant_value (PyVal.num 0)) with _ | q <;> simp [hq]
    · intro c hb; rw [hdt] at hb; exact absurd hb (by decide)
    · intro hb; rw [hdt] at hb; exact absurd hb (by decide)
    · intro hb; rw [hdt] at hb; exact absurd hb (by decide)
    · intro q hq
      constructor
      · intro hb; rw [hdt] at hb; exact absurd hb (by decide)
      · intro _
        simp [generate_field_value, hdt, generate_numeric_value, numeric_raw_value, hp,
          convert_numeric, hq]

/-- Witness for C7: the constant-5 float field at steps 0 and 9 under two
environments. -/
theorem C7_witness :
    (generate_field_value false sampleOracle constFloatField 0).1
        = (generate_field_value true sampleOracle2 constFloatField 9).1 ∧
    (generate_field_value false sampleOracle constFloatField 0).2 = 0 ∧
    (generate_field_value false sampleOracle constFloatField 0).1 = MsgVal.num (round2 5) := by
  have h := C7_constant_pattern false true constFloatField sampleOracle sampleOracle2 0 9
    rfl (Or.inr (Or.inr (Or.inr rfl)))
  refine ⟨h.2.1, h.1, ?_⟩
  have hq : asNum (pyOr constFloatField.constant_value (PyVal.num 0)) = some 5 := by
    simp [constFloatField, pyOr, pyTruthy, asNum]
  exact (h.2.2.2.2.2 5 hq).2 rfl

/-! ## Metrics collector lemmas -/

lemma update_rates_total_messages (now mono : ℚ) (s : MetricsState) :
    (update_rates now mono s).total_messages = s.total_messages := by
  unfold update_rates; split <;> rfl

lemma update_rates_total_errors (now mono : ℚ) (s : MetricsState) :
    (update_rates now mono s).total_errors = s.total_errors := by
  unfold update_rates; split <;> rfl

lemma update_rates_message_history (now mono : ℚ) (s : MetricsState) :
    (update_rates now mono s).message_history = s.message_history := by
  unfold update_rates; split <;> rfl

lemma update_rates_error_history (now mono : ℚ) (s : MetricsState) :
    (update_rates now mono s).error_history = s.error_history := by
  unfold update_rates; split <;> rfl

lemma record_sent_total_messages (id : String) (now mono : ℚ) (s : MetricsState) :
    (record_message_sent id now mono s).total_messages = s.total_messages + 1 := by
  simp [record_message_sent, update_rates_total_messages]

lemma record_sent_total_errors (id : String) (now mono : ℚ) (s : MetricsState) :
    (record_message_sent id now mono s).total_errors = s.total_errors := by
  simp [record_message_sent, update_rates_total_errors]

lemma record_err_total_messages (id : String) (now : ℚ) (s : MetricsState) :
    (record_message_error id now s).total_messages = s.total_messages := by
  simp [record_message_error]

lemma record_err_total_errors (id : String) (now : ℚ) (s : MetricsState) :
    (record_message_error id now s).total_errors = s.total_errors + 1 := by
  simp [record_message_error]

lemma lookupDev_append_right (m m' : List (String × DeviceEntry)) (id : String)
    (h : lookupDev m id = none) : lookupDev (m ++ m') id = lookupDev m' id := by
  induction m with
  | nil => rfl
  | cons p rest ih =>
    rcases p with ⟨k, v⟩
    by_cases hk : k = id
    · rw [lookupDev, if_pos hk] at h; cases h
    · rw [lookupDev, if_neg hk] at h
      rw [List.cons_append, lookupDev, if_neg hk]
      exact ih h

lemma applyRecords_totals : ∀ (evs : List RecordEvent) (s : MetricsState),
    (applyRecords s evs).total_messages = s.total_messages + evs.countP isSent ∧
    (applyRecords s evs).total_errors = s.total_errors + evs.countP (fun e => !isSent e) := by
  intro evs
  induction evs with
  | nil => intro s; simp [applyRecords]
  | cons e rest ih =>
    intro s
    have hstep : applyRecords s (e :: rest) = applyRecords (applyRecord s e) rest := rfl
    rcases e with ⟨id, now, mono⟩ | ⟨id, now⟩
    · have h := ih (applyRecord s (RecordEvent.sent id now mono))
      rw [hstep]
      rw [h.1, h.2]
      simp [applyRecord, record_sent_total_messages, record_sent_total_errors,
        List.countP_cons, isSent]
      omega
    · have h := ih (applyRecord s (RecordEvent.err id now))
      rw [hstep]
      rw [h.1, h.2]
      simp [applyRecord, record_err_total_messages, record_err_total_errors,
        List.countP_cons, isSent]
      omega

/-- Claim C2: after a fresh collector (or one just reset) processes any
interleaving of N `record_message_sent` and M `record_message_error` calls,
`export_metrics` reports `system_metrics.total_messages = N` and
`system_metrics.total_errors = M`. -/
theorem C2_export_totals (evs : List RecordEvent) (t u now now'' : ℚ)
    (s : MetricsState) :
    ((export_metrics now (applyRecords (initMetrics t u) evs)).system_metrics.total_messages
        = evs.countP isSent ∧
     (export_metrics now (applyRecords (initMetrics t u) evs)).system_metrics.total_errors
        = evs.countP (fun e => !isSent e)) ∧
    ((export_metrics now (applyRecords (reset_metrics now'' s) evs)).system_metrics.total_messages
        = evs.countP isSent ∧
     (export_metrics now (applyRecords (reset_metrics now'' s) evs)).system_metrics.total_errors
        = evs.countP (fun e => !isSent e)) := by
  have h1 := applyRecords_totals evs (initMetrics t u)
  have h2 := applyRecords_totals evs (reset_metrics now'' s)
  simp [export_metrics, get_system_metrics, initMetrics, reset_metrics] at h1 h2 ⊢
  exact ⟨⟨h1.1, h1.2⟩, ⟨h2.1, h2.2⟩⟩

/-- Claim C10: reading metrics for a device id the collector has never
seen returns the default entry and, as a side effect of the defaultdict
access, inserts that entry, so `total_devices` in the system metrics grows
by one even though no event was recorded. -/
theorem C10_get_device_metrics_inserts (id : String) (s : MetricsState) (now : ℚ)
    (h : lookupDev s.device_metrics id = none) :
    (get_device_metrics id s).1 = defaultEntry ∧
    (get_system_metrics now (get_device_metrics id s).2).total_devices
      = (get_system_metrics now s).total_devices + 1 ∧
    lookupDev (get_device_metrics id s).2.device_metrics id = some defaultEntry := by
  refine ⟨?_, ?_, ?_⟩
  · simp [get_device_metrics, getOrInsert, h]
  · simp [get_device_metrics, getOrInsert, h, get_system_metrics]
  · simp only [get_device_metrics, getOrInsert, h]
    rw [lookupDev_append_right _ _ _ h]
    rw [lookupDev, if_pos rfl]

/-- Witness for C10 on a fresh collector and the id `"x"`. -/
theorem C10_witness :
    (get_device_metrics "x" (initMetrics 0 0)).1 = defaultEntry ∧
    (get_system_metrics 0 (get_device_metrics "x" (initMetrics 0 0)).2).total_devices
      = (get_system_metrics 0 (initMetrics 0 0)).total_devices + 1 :=
  ⟨(C10_get_device_metrics_inserts "x" (initMetrics 0 0) 0 rfl).1,
   (C10_get_device_metrics_inserts "x" (initMetrics 0 0) 0 rfl).2.1⟩

lemma dequeAppend_eq_lastN (cap : ℕ) (xs : List (ℚ × ℕ)) (x : ℚ × ℕ) :
    dequeAppend cap xs x = lastN cap (xs ++ [x]) := by
  simp only [dequeAppend, lastN]
  split
  · next h => rw [Nat.sub_eq_zero_of_le h, List.drop_zero]
  · rfl

lemma lastN_length_le (n : ℕ) (xs : List (ℚ × ℕ)) : (lastN n xs).length ≤ n := by
  unfold lastN
  rw [List.length_drop]
  omega

lemma lastN_append_lastN (cap : ℕ) (E : List (ℚ × ℕ)) (x : ℚ × ℕ) :
    lastN cap (lastN cap E ++ [x]) = lastN cap (E ++ [x]) := by
  unfold lastN
  rcases le_or_lt E.length cap with h | h
  · rw [Nat.sub_eq_zero_of_le h, List.drop_zero]
  · simp only [List.length_append, List.length_drop, List.length_singleton]
    rcases Nat.eq_zero_or_pos cap with hc | hc
    · subst hc
      simp only [Nat.sub_zero]
      rw [List.drop_eq_nil_of_le (le_refl E.length), List.nil_append]
      have h1 : E.length - E.length + 1 = 1 := by omega
      rw [h1]
      rw [List.drop_eq_nil_of_le (by simp), List.drop_eq_nil_of_le (by simp)]
    · have h1 : E.length - (E.length - cap) + 1 - cap = 1 := by omega
      rw [h1, List.drop_append_eq_append_drop, List.drop_append_eq_append_drop,
        List.drop_drop, List.length_drop]
      have h2 : 1 - (E.length - (E.length - cap)) = 0 := by omega
      have h3 : E.length + 1 - cap - E.length = 0 := by omega
      rw [h2, h3, List.drop_zero]
      have h4 : E.length - cap + 1 = E.length + 1 - cap := by omega
      rw [h4]

lemma record_sent_message_history (id : String) (now mono : ℚ) (s : MetricsState) :
    (record_message_sent id now mono s).message_history
      = dequeAppend history_size s.message_history (now, 1) := by
  simp [record_message_sent, update_rates_message_history]

lemma record_sent_error_history (id : String) (now mono : ℚ) (s : MetricsState) :
    (record_message_sent id now mono s).error_history = s.error_history := by
  simp [record_message_sent, update_rates_error_history]

lemma record_err_message_history (id : String) (now : ℚ) (s : MetricsState) :
    (record_message_error id now s).message_history = s.message_history := by
  simp [record_message_error]

lemma record_err_error_history (id : String) (now : ℚ) (s : MetricsState) :
    (record_message_error id now s).error_history
      = dequeAppend history_size s.error_history (now, 1) := by
  simp [record_message_error]

lemma applyRecords_histories : ∀ (evs : List RecordEvent) (s : MetricsState)
    (Em Ee : List (ℚ × ℕ)),
    s.message_history = lastN history_size Em →
    s.error_history = lastN history_size Ee →
    (applyRecords s evs).message_history = lastN history_size (Em ++ sentEntries evs) ∧
    (applyRecords s evs).error_history = lastN history_size (Ee ++ errEntries evs) := by
  intro evs
  induction evs with
  | nil =>
    intro s Em Ee hm he
    simp [applyRecords, sentEntries, errEntries, hm, he]
  | cons e rest ih =>
    intro s Em Ee hm he
    have hstep : applyRecords s (e :: rest) = applyRecords (applyRecord s e) rest := rfl
    rw [hstep]
    rcases e with ⟨id, now, mono⟩ | ⟨id, now⟩
    · have hm' : (applyRecord s (RecordEvent.sent id now mono)).message_history
          = lastN history_size (Em ++ [(now, 1)]) := by
        show (record_message_sent id now mono s).message_history = _
        rw [record_sent_message_history, hm, dequeAppend_eq_lastN, lastN_append_lastN]
      have he' : (applyRecord s (RecordEvent.sent id now mono)).error_history
          = lastN history_size Ee := by
        show (record_message_sent id now mono s).error_history = _
        rw [record_sent_error_history, he]
      have h := ih (applyRecord s (RecordEvent.sent id now mono)) (Em ++ [(now, 1)]) Ee hm' he'
      constructor
      · rw [h.1]
        congr 1
        rw [List.append_assoc]
        congr 1
      · rw [h.2]
        congr 1
    · have hm' : (applyRecord s (RecordEvent.err id now)).message_history
          = lastN history_size Em := by
        show (record_message_error id now s).message_history = _
        rw [record_err_message_history, hm]
      have he' : (applyRecord s (RecordEvent.err id now)).error_history
          = lastN history_size (Ee ++ [(now, 1)]) := by
        show (record_message_error id now s).error_history = _
        rw [record_err_error_history, he, dequeAppend_eq_lastN, lastN_append_lastN]
      have h := ih (applyRecord s (RecordEvent.err id now)) Em (Ee ++ [(now, 1)]) hm' he'
      constructor
      · rw [h.1]
        congr 1
      · rw [h.2]
        congr 1
        rw [List.append_assoc]
        congr 1

/-- Claim C5: under any sequence of record calls, each history buffer
holds exactly the last `history_size = 24 * 60 = 1440` appended entries in
insertion order (the oldest are evicted first) and never exceeds that
capacity. -/
theorem C5_history_ring_buffer (evs : List RecordEvent) (t u : ℚ) :
    history_size = 1440 ∧
    (applyRecords (initMetrics t u) evs).message_history
      = lastN history_size (sentEntries evs) ∧
    (applyRecords (initMetrics t u) evs).message_history.length ≤ history_size ∧
    (applyRecords (initMetrics t u) evs).error_history
      = lastN history_size (errEntries evs) ∧
    (applyRecords (initMetrics t u) evs).error_history.length ≤ history_size := by
  have h := applyRecords_histories evs (initMetrics t u) [] [] rfl rfl
  rw [List.nil_append, List.nil_append] at h
  refine ⟨rfl, h.1, ?_, h.2, ?_⟩
  · rw [h.1]; exact lastN_length_le _ _
  · rw [h.2]; exact lastN_length_le _ _

/-! ## Device-status counter lemmas -/

lemma lookupDev_eq_none_iff : ∀ (m : List (String × DeviceEntry)) (id : String),
    lookupDev m id = none ↔ id ∉ m.map Prod.fst := by
  intro m id
  induction m with
  | nil => simp [lookupDev]
  | cons p rest ih =>
    rcases p with ⟨k, v⟩
    by_cases hk : k = id
    · subst hk
      simp [lookupDev]
    · rw [lookupDev, if_neg hk, List.map_cons, List.mem_cons, ih]
      constructor
      · intro h hor
        rcases hor with h1 | h2
        · exact hk h1.symm
        · exact h h2
      · intro h h2
        exact h (Or.inr h2)

lemma setDev_lookup_none (id : String) (v : DeviceEntry) :
    ∀ (m : List (String × DeviceEntry)), lookupDev m id = none → setDev m id v = m := by
  intro m
  induction m with
  | nil => intro _; rfl
  | cons p rest ih =>
    intro h
    rcases p with ⟨k, u⟩
    rw [lookupDev] at h
    by_cases hk : k = id
    · rw [if_pos hk] at h; cases h
    · rw [if_neg hk] at h
      rw [setDev, ih h]
      simp [hk]

lemma setDev_append (id : String) (v : DeviceEntry) :
    ∀ (m m' : List (String × DeviceEntry)),
    setDev (m ++ m') id v = setDev m id v ++ setDev m' id v := by
  intro m m'
  induction m with
  | nil => rfl
  | cons p rest ih =>
    rw [List.cons_append, setDev, setDev, ih, List.cons_append]

lemma map_fst_setDev (id : String) (v : DeviceEntry) :
    ∀ (m : List (String × DeviceEntry)),
    (setDev m id v).map Prod.fst = m.map Prod.fst := by
  intro m
  induction m with
  | nil => rfl
  | cons p rest ih =>
    rw [setDev, List.map_cons, List.map_cons, ih]
    by_cases hk : p.1 = id
    · rw [if_pos hk]
      simp [hk]
    · rw [if_neg hk]

lemma countP_setDev (q : DeviceEntry → Bool) :
    ∀ (m : List (String × DeviceEntry)) (id : String) (v w : DeviceEntry),
    lookupDev m id = some v → (m.map Prod.fst).Nodup →
    (setDev m id w).countP (fun p => q p.2) + (if q v then 1 else 0)
      = m.countP (fun p => q p.2) + (if q w then 1 else 0) := by
  intro m
  induction m with
  | nil => intro id v w h _; cases h
  | cons p rest ih =>
    intro id v w h hnd
    rcases p with ⟨k, u⟩
    rw [List.map_cons, List.nodup_cons] at hnd
    rw [lookupDev] at h
    by_cases hk : k = id
    · rw [if_pos hk] at h
      injection h with h
      subst h
      subst hk
      have hrest : lookupDev rest k = none :=
        (lookupDev_eq_none_iff rest k).2 hnd.1
      rw [setDev, if_pos rfl, setDev_lookup_none _ _ _ hrest,
        List.countP_cons, List.countP_cons]
      simp only []
      by_cases hqw : q w <;> by_cases hqu : q u <;> simp [hqw, hqu]
    · rw [if_neg hk] at h
      rw [setDev, if_neg hk, List.countP_cons, List.countP_cons]
      have hih := ih id v w h hnd.2
      omega

lemma update_status_step (id : String) (c b : Bool) (s : MetricsState)
    (h : MetricsInv s) : MetricsInv (update_device_status id c b s) := by
  obtain ⟨hnd, hcd, had⟩ := h
  cases hl : lookupDev s.device_metrics id with
  | none =>
    have hid : id ∉ s.device_metrics.map Prod.fst := (lookupDev_eq_none_iff _ _).1 hl
    have hdm : (update_device_status id c b s).device_metrics
        = s.device_metrics ++ [(id,
            { defaultEntry with
              connection_status := if c then "connected" else "disconnected"
              simulation_status := if b then "running" else "stopped" })] := by
      simp only [update_device_status, getOrInsert, hl]
      rw [setDev_append, setDev_lookup_none _ _ _ hl, setDev, setDev]
      simp
    have hcd' : (update_device_status id c b s).connected_devices
        = if c then s.connected_devices + 1 else s.connected_devices := by
      cases c <;> cases b <;>
        simp [update_device_status, getOrInsert, hl, defaultEntry]
    have had' : (update_device_status id c b s).active_devices
        = if b then s.active_devices + 1 else s.active_devices := by
      cases c <;> cases b <;>
        simp [update_device_status, getOrInsert, hl, defaultEntry]
    refine ⟨?_, ?_, ?_⟩
    · rw [hdm, List.map_append, List.map_cons, List.map_nil, List.nodup_append]
      refine ⟨hnd, List.nodup_singleton id, ?_⟩
      intro a ha hmem
      rw [List.mem_singleton] at hmem
      subst hmem
      exact hid ha
    · rw [hcd', hdm]
      unfold connCount at hcd ⊢
      rw [List.countP_append]
      cases c <;> simp [List.countP_cons, hcd]
    · rw [had', hdm]
      unfold runCount at had ⊢
      rw [List.countP_append]
      cases b <;> simp [List.countP_cons, had]
  | some v =>
    have hdm : (update_device_status id c b s).device_metrics
        = setDev s.device_metrics id
            { v with
              connection_status := if c then "connected" else "disconnected"
              simulation_status := if b then "running" else "stopped" } := by
      simp only [update_device_status, getOrInsert, hl]
    have hcount_c := countP_setDev (fun e => e.connection_status == "connected")
      s.device_metrics id v
      { v with
        connection_status := if c then "connected" else "disconnected"
        simulation_status := if b then "running" else "stopped" } hl hnd
    have hcount_r := countP_setDev (fun e => e.simulation_status == "running")
      s.device_metrics id v
      { v with
        connection_status := if c then "connected" else "disconnected"
        simulation_status := if b then "running" else "stopped" } hl hnd
    have hcd' : (update_device_status id c b s).connected_devices
        = if ((if c then "connected" else "disconnected") == "connected")
              != (v.connection_status == "connected") then
            (if ((if c then "connected" else "disconnected") == "connected")
             then s.connected_devices + 1 else s.connected_devices - 1)
          else s.connected_devices := by
      simp only [update_device_status, getOrInsert, hl]
    have had' : (update_device_status id c b s).active_devices
        = if ((if b then "running" else "stopped") == "running")
              != (v.simulation_status == "running") then
            (if ((if b then "running" else "stopped") == "running")
             then s.active_devices + 1 else s.active_devices - 1)
          else s.active_devices := by
      simp only [update_device_status, getOrInsert, hl]
    refine ⟨?_, ?_, ?_⟩
    · rw [hdm, map_fst_setDev]
      exact hnd
    · rw [hcd', hdm]
      unfold connCount at hcd hcount_c ⊢
      cases c <;> cases hov : (v.connection_status == "connected") <;>
        simp [hov] at hcount_c ⊢ <;> omega
    · rw [had', hdm]
      unfold runCount at had hcount_r ⊢
      cases b <;> cases hos : (v.simulation_status == "running") <;>
        simp [hos] at hcount_r ⊢ <;> omega

lemma lookupDev_setDev_found (id : String) (v : DeviceEntry) :
    ∀ (m : List (String × DeviceEntry)) (w : DeviceEntry),
    lookupDev m id = some w → lookupDev (setDev m id v) id = some v := by
  intro m
  induction m with
  | nil => intro w h; cases h
  | cons p rest ih =>
    intro w h
    rcases p with ⟨k, u⟩
    rw [lookupDev] at h
    by_cases hk : k = id
    · rw [setDev, if_pos hk, lookupDev, if_pos rfl]
    · rw [if_neg hk] at h
      rw [setDev, if_neg hk, lookupDev, if_neg hk]
      exact ih w h

lemma update_status_lookup (id : String) (c b : Bool) (s : MetricsState) :
    ∃ e : DeviceEntry,
      lookupDev (update_device_status id c b s).device_metrics id = some e ∧
      e.connection_status = (if c then "connected" else "disconnected") ∧
      e.simulation_status = (if b then "running" else "stopped") := by
  cases hl : lookupDev s.device_metrics id with
  | none =>
    have hres : lookupDev (update_device_status id c b s).device_metrics id =
        some { defaultEntry with
               connection_status := if c then "connected" else "disconnected"
               simulation_status := if b then "running" else "stopped" } := by
      simp only [update_device_status, getOrInsert, hl]
      rw [setDev_append, setDev_lookup_none _ _ _ hl, setDev, if_pos rfl, setDev]
      rw [lookupDev_append_right _ _ _ hl, lookupDev, if_pos rfl]
    exact ⟨_, hres, rfl, rfl⟩
  | some v =>
    have hres : lookupDev (update_device_status id c b s).device_metrics id =
        some { v with
               connection_status := if c then "connected" else "disconnected"
               simulation_status := if b then "running" else "stopped" } := by
      simp only [update_device_status, getOrInsert, hl]
      exact lookupDev_setDev_found _ _ _ _ hl
    exact ⟨_, hres, rfl, rfl⟩

lemma update_status_idem (id : String) (c b : Bool) (s : MetricsState) :
    (update_device_status id c b (update_device_status id c b s)).connected_devices
      = (update_device_status id c b s).connected_devices ∧
    (update_device_status id c b (update_device_status id c b s)).active_devices
      = (update_device_status id c b s).active_devices := by
  obtain ⟨e, hle, hec, hes⟩ := update_status_lookup id c b s
  generalize hg : update_device_status id c b s = s1 at hle ⊢
  constructor <;>
  · simp only [update_device_status, getOrInsert, hle]
    cases c <;> cases b <;> simp [hec, hes]

lemma applyStatusUpdates_inv : ∀ (us : List (String × Bool × Bool)) (s : MetricsState),
    MetricsInv s → MetricsInv (applyStatusUpdates s us) := by
  intro us
  induction us with
  | nil => intro s h; exact h
  | cons x rest ih =>
    intro s h
    exact ih (update_device_status x.1 x.2.1 x.2.2 s) (update_status_step x.1 x.2.1 x.2.2 s h)

lemma initMetrics_inv (t u : ℚ) : MetricsInv (initMetrics t u) := by
  refine ⟨List.nodup_nil, ?_, ?_⟩ <;> simp [initMetrics, connCount, runCount]

/-- Claim C1: after any sequence of `update_device_status` calls on a
fresh collector, `connected_devices` equals the number of per-device
entries whose `connection_status` is `"connected"` and `active_devices`
the number whose `simulation_status` is `"running"`; and appending a
repeated update carrying the same status the device already has leaves
both system counters unchanged. -/
theorem C1_system_counters_invariant (us : List (String × Bool × Bool)) (t u : ℚ) :
    ((applyStatusUpdates (initMetrics t u) us).connected_devices
        = (connCount (applyStatusUpdates (initMetrics t u) us).device_metrics : ℤ) ∧
     (applyStatusUpdates (initMetrics t u) us).active_devices
        = (runCount (applyStatusUpdates (initMetrics t u) us).device_metrics : ℤ)) ∧
    (∀ (id : String) (c b : Bool),
      (applyStatusUpdates (initMetrics t u) (us ++ [(id, c, b), (id, c, b)])).connected_devices
        = (applyStatusUpdates (initMetrics t u) (us ++ [(id, c, b)])).connected_devices ∧
      (applyStatusUpdates (initMetrics t u) (us ++ [(id, c, b), (id, c, b)])).active_devices
        = (applyStatusUpdates (initMetrics t u) (us ++ [(id, c, b)])).active_devices) := by
  have hinv := applyStatusUpdates_inv us (initMetrics t u) (initMetrics_inv t u)
  refine ⟨⟨hinv.2.1, hinv.2.2⟩, ?_⟩
  intro id c b
  have h1 : applyStatusUpdates (initMetrics t u) (us ++ [(id, c, b), (id, c, b)])
      = update_device_status id c b (update_device_status id c b
          (applyStatusUpdates (initMetrics t u) us)) := by
    unfold applyStatusUpdates
    rw [List.foldl_append]
    rfl
  have h2 : applyStatusUpdates (initMetrics t u) (us ++ [(id, c, b)])
      = update_device_status id c b (applyStatusUpdates (initMetrics t u) us) := by
    unfold applyStatusUpdates
    rw [List.foldl_append]
    rfl
  rw [h1, h2]
  exact update_status_idem id c b _

lemma generate_fields_frozen_eq (fa : Bool) (oracle : ℕ → FieldOracle) :
    ∀ (fields : List FieldConfig) (i step : ℕ) (acc : List (String × MsgVal)),
    (∀ j f, fields.get? j = some f →
      (generate_field_value fa (oracle (i + j)) f step).2 = step) →
    generate_fields fa oracle fields i step acc
      = (generate_fields_frozen fa oracle fields i step acc, step) := by
  intro fields
  induction fields with
  | nil => intro i step acc h; rfl
  | cons f rest ih =>
    intro i step acc h
    have h0 : (generate_field_value fa (oracle i) f step).2 = step := by
      have hx := h 0 f rfl
      rwa [Nat.add_zero] at hx
    have hrest : ∀ j f', rest.get? j = some f' →
        (generate_field_value fa (oracle (i + 1 + j)) f' step).2 = step := by
      intro j f' hj
      have hx := h (j + 1) f' hj
      rwa [show i + (j + 1) = i + 1 + j by omega] at hx
    rw [generate_fields, generate_fields_frozen, h0,
      ih (i + 1) step (dictInsert acc f.name (generate_field_value fa (oracle i) f step).1) hrest]

/-- Claim C8 (amended): the template's shared step counter is incremented
exactly once per `generate_message` call, after all fields are evaluated;
provided no field evaluation mutates the counter (no linear wrap fires),
every field observes the same counter and across consecutive calls it grows
by exactly 1. -/
theorem C8_shared_step_counter (fa : Bool) (oracle : ℕ → FieldOracle) (iso : String)
    (fields : List FieldConfig) (step : ℕ)
    (h : ∀ j f, fields.get? j = some f →
      (generate_field_value fa (oracle j) f step).2 = step) :
    (generate_message fa oracle iso fields step).2 = step + 1 ∧
    (generate_message fa oracle iso fields step).1 =
      (if dictContains (generate_fields_frozen fa oracle fields 0 step []) "timestamp"
       then generate_fields_frozen fa oracle fields 0 step []
       else dictInsert (generate_fields_frozen fa oracle fields 0 step [])
              "timestamp" (MsgVal.str iso)) := by
  have h0 : ∀ j f, fields.get? j = some f →
      (generate_field_value fa (oracle (0 + j)) f step).2 = step := by
    intro j f hj
    rw [Nat.zero_add]
    exact h j f hj
  have he := generate_fields_frozen_eq fa oracle fields 0 step [] h0
  constructor
  · simp only [generate_message, he]
  · simp only [generate_message, he]

/-- Witness for the amended C8 on a two-field template with no wrap. -/
theorem C8_witness :
    (generate_message false (fun _ => sampleOracle) "T" [constFloatField, stepStringField] 4).2
      = 4 + 1 :=
  (C8_shared_step_counter false (fun _ => sampleOracle) "T" [constFloatField, stepStringField] 4
    (by
      intro j f hj
      match j with
      | 0 =>
        cases hj
        rfl
      | 1 =>
        cases hj
        rfl
      | j + 2 => cases hj)).1

/-- Claim C8, counterexample: a linear field that wraps resets the shared
step counter mid-call, so the following field observes counter 0 instead of
the call's starting counter 2 (its value is `"b_0"`, not `"b_2"`), and the
counter after the call is 1 rather than 2 + 1. -/
theorem C8_counterexample :
    (generate_message false (fun _ => sampleOracle) "T" [linearWrapField, stepStringField] 2).1
      = [("a", MsgVal.num 0), ("b", MsgVal.str "b_0"), ("timestamp", MsgVal.str "T")] ∧
    (generate_message false (fun _ => sampleOracle) "T" [linearWrapField, stepStringField] 2).2
      = 1 ∧
    (generate_message false (fun _ => sampleOracle) "T" [linearWrapField, stepStringField] 2).2
      ≠ 2 + 1 ∧
    ("b_0" : String) ≠ "b_2" := by
  have hfa : generate_field_value false sampleOracle linearWrapField 2 = (MsgVal.num 0, 0) := by
    simp only [generate_field_value, linearWrapField, generate_numeric_value,
      numeric_raw_value, pyOrQ, convert_numeric]
    norm_num
    simp [round2, roundHalfEven, Rat.floor]
  have hfb : generate_field_value false sampleOracle stepStringField 0 = (MsgVal.str "b_0", 0) := by
    simp [generate_field_value, stepStringField, generate_string_value]
    rfl
  refine ⟨?_, ?_, ?_, by decide⟩
  · simp [generate_message, generate_fields, hfa, hfb, dictInsert, dictContains,
      show linearWrapField.name = "a" from rfl, show stepStringField.name = "b" from rfl]
  · simp only [generate_message, generate_fields, hfa, hfb]
  · simp only [generate_message, generate_fields, hfa, hfb]
    decide

end IoTSim
